import Mathlib

/-!
Verification of the `colors` library (src/lib/colors/src/lib.rs): a shallow
embedding of its data model and constructors, followed by theorems settling
the specified properties.
-/

namespace ColorsLib

/-- Terminal style attributes (struct `Attributes`, src lines 75-82).
The Rust struct derives `Default`, i.e. every field defaults to `""`. -/
structure Attributes where
  blink : String
  bold : String
  italic : String
  reset : String
  reverse : String
  underline : String
deriving DecidableEq, Repr

/-- Terminal background and foreground colors (struct `Colors`, src lines 85-103). -/
structure Colors where
  black : String
  blue : String
  cyan : String
  green : String
  magenta : String
  red : String
  white : String
  yellow : String
  bright_black : String
  bright_blue : String
  bright_cyan : String
  bright_green : String
  bright_magenta : String
  bright_red : String
  bright_white : String
  bright_yellow : String
deriving DecidableEq, Repr

/-- Data structure containing all attributes and colors (struct `Codes`, src lines 106-110). -/
structure Codes where
  attr : Attributes
  bg : Colors
  fg : Colors
deriving DecidableEq, Repr

/-- The `Default` instance Rust derives for `Attributes`: every `String` field is empty. -/
def Attributes.defaultVal : Attributes :=
  { blink := "", bold := "", italic := "", reset := "", reverse := "", underline := "" }

/-- The `Default` instance Rust derives for `Colors`: every `String` field is empty. -/
def Colors.defaultVal : Colors :=
  { black := "", blue := "", cyan := "", green := "", magenta := "", red := "", white := "",
    yellow := "", bright_black := "", bright_blue := "", bright_cyan := "", bright_green := "",
    bright_magenta := "", bright_red := "", bright_white := "", bright_yellow := "" }

/-- The `Default` instance Rust derives for `Codes`: defaults of the three sub-structures. -/
def Codes.defaultVal : Codes :=
  { attr := Attributes.defaultVal, bg := Colors.defaultVal, fg := Colors.defaultVal }

/-- A continuation byte of a UTF-8 encoded sequence: in the range 0x80-0xBF. -/
def isContByte (b : Nat) : Bool := 0x80 ≤ b && b ≤ 0xBF

/-- Consume one well-formed UTF-8 scalar-value encoding from the front of a byte
list, returning the remainder, or `none` if the front is malformed. This is
the standard UTF-8 well-formedness table (as enforced by Rust `String`):
no overlong forms, no surrogates, nothing above U+10FFFF. -/
def utf8Step : List Nat → Option (List Nat)
  | [] => none
  | b :: rest =>
    if b ≤ 0x7F then some rest
    else if 0xC2 ≤ b && b ≤ 0xDF then
      match rest with
      | c1 :: rest2 => if isContByte c1 then some rest2 else none
      | [] => none
    else if b == 0xE0 then
      match rest with
      | c1 :: c2 :: rest2 =>
          if (0xA0 ≤ c1 && c1 ≤ 0xBF) && isContByte c2 then some rest2 else none
      | _ => none
    else if (0xE1 ≤ b && b ≤ 0xEC) || b == 0xEE || b == 0xEF then
      match rest with
      | c1 :: c2 :: rest2 => if isContByte c1 && isContByte c2 then some rest2 else none
      | _ => none
    else if b == 0xED then
      match rest with
      | c1 :: c2 :: rest2 =>
          if (0x80 ≤ c1 && c1 ≤ 0x9F) && isContByte c2 then some rest2 else none
      | _ => none
    else if b == 0xF0 then
      match rest with
      | c1 :: c2 :: c3 :: rest2 =>
          if (0x90 ≤ c1 && c1 ≤ 0xBF) && isContByte c2 && isContByte c3 then some rest2 else none
      | _ => none
    else if 0xF1 ≤ b && b ≤ 0xF3 then
      match rest with
      | c1 :: c2 :: c3 :: rest2 =>
          if isContByte c1 && isContByte c2 && isContByte c3 then some rest2 else none
      | _ => none
    else if b == 0xF4 then
      match rest with
      | c1 :: c2 :: c3 :: rest2 =>
          if (0x80 ≤ c1 && c1 ≤ 0x8F) && isContByte c2 && isContByte c3 then some rest2 else none
      | _ => none
    else none

/-- Fueled loop for `validUtf8`; `utf8Step` consumes at least one byte per
success, so fuel equal to the length of the list suffices. -/
def validUtf8Aux : Nat → List Nat → Bool
  | _, [] => true
  | 0, _ :: _ => false
  | fuel + 1, b :: rest =>
    match utf8Step (b :: rest) with
    | some r => validUtf8Aux fuel r
    | none => false

/-- Whether a byte list is a well-formed UTF-8 encoding, i.e. whether Rust can
decode the OS-level value into a `String`. -/
def validUtf8 (l : List Nat) : Bool := validUtf8Aux l.length l

/-- Error type of Rust `std::env::var`: the variable is absent, or its
OS-level value is not valid Unicode. -/
inductive VarError where
  | NotPresent : VarError
  | NotUnicode : VarError
deriving DecidableEq

/-- Model of Rust `std::env::var` applied to a variable whose OS-level value is
`v` (`none` when the variable is unset, otherwise the raw bytes): `Ok` exactly
when the variable is present and its bytes are valid UTF-8. The decoded string
itself is irrelevant to this library, which only tests `is_ok()`. -/
def env_var (v : Option (List Nat)) : Except VarError Unit :=
  match v with
  | none => Except.error VarError.NotPresent
  | some bytes => if validUtf8 bytes then Except.ok () else Except.error VarError.NotUnicode

/-- Check if the `NO_COLOR` environment variable is set (fn `no_color_env`, src
lines 121-123): `env::var("NO_COLOR").is_ok()`. The parameter `v` is the
OS-level value of `NO_COLOR`. -/
def no_color_env (v : Option (List Nat)) : Bool :=
  match env_var v with
  | Except.ok _ => true
  | Except.error _ => false

/-- Check if running inside of a TTY (fn `is_tty`, src lines 116-118):
`libc::isatty(libc::STDOUT_FILENO) != 0`. The parameter `isattyRet` is the
value returned by the `isatty` C call; POSIX `isatty` returns nonzero when the
descriptor refers to a terminal and 0 otherwise, including on every failure
(e.g. EBADF for an invalid or closed descriptor). -/
def is_tty (isattyRet : Int) : Bool := isattyRet != 0

/-- Return data structure with preset attribute and color values (fn `init_on`,
src lines 138-190). Field values transcribed byte for byte. -/
def init_on : Codes :=
  { attr :=
      { reset := "\x1B[0m"
        bold := "\x1B[1m"
        italic := "\x1B[3m"
        underline := "\x1B[4m"
        blink := "\x1B[5m"
        reverse := "\x1B[7m" }
    bg :=
      { black := "\x1B[40m"
        red := "\x1B[41m"
        green := "\x1B[42m"
        yellow := "\x1B[43m"
        blue := "\x1B[44m"
        magenta := "\x1B[45m"
        cyan := "\x1B[46m"
        white := "\x1B[47m"
        bright_black := "\x1B[100m"
        bright_red := "\x1B[101m"
        bright_green := "\x1B[102m"
        bright_yellow := "\x1B[103m"
        bright_blue := "\x1B[104m"
        bright_magenta := "\x1B[105m"
        bright_cyan := "\x1B[106m"
        bright_white := "\x1B[107m" }
    fg :=
      { black := "\x1B[30m"
        red := "\x1B[31m"
        green := "\x1B[32m"
        yellow := "\x1B[33m"
        blue := "\x1B[34m"
        magenta := "\x1B[35m"
        cyan := "\x1B[36m"
        white := "\x1B[37m"
        bright_black := "\x1B[90m"
        bright_red := "\x1B[91m"
        bright_green := "\x1B[92m"
        bright_yellow := "\x1B[93m"
        bright_blue := "\x1B[94m"
        bright_magenta := "\x1B[95m"
        bright_cyan := "\x1B[96m"
        bright_white := "\x1B[97m" } }

/-- Return data structure with empty attribute and color values (fn `init_off`,
src lines 193-196): `Codes::default()`. -/
def init_off : Codes := Codes.defaultVal

/-- Run `init_on` or `init_off` and return the result (fn `init_auto`, src
lines 129-135): `if is_tty() && !no_color_env() { return init_on(); } init_off()`.
The two external reads are passed in: `isattyRet` is the `isatty` return value
and `v` the OS-level value of `NO_COLOR`. -/
def init_auto (isattyRet : Int) (v : Option (List Nat)) : Codes :=
  if is_tty isattyRet && !(no_color_env v) then init_on else init_off

/-- The eight base color names, in the fixed documented order (index 0-7). -/
inductive ColorName where
  | black : ColorName
  | red : ColorName
  | green : ColorName
  | yellow : ColorName
  | blue : ColorName
  | magenta : ColorName
  | cyan : ColorName
  | white : ColorName
deriving DecidableEq, Repr

/-- The color index N of a color name: black=0, red=1, green=2, yellow=3,
blue=4, magenta=5, cyan=6, white=7. -/
def ColorName.idx : ColorName → Nat
  | .black => 0
  | .red => 1
  | .green => 2
  | .yellow => 3
  | .blue => 4
  | .magenta => 5
  | .cyan => 6
  | .white => 7

/-- The base-variant field of a `Colors` value selected by color name. -/
def Colors.base (c : Colors) : ColorName → String
  | .black => c.black
  | .red => c.red
  | .green => c.green
  | .yellow => c.yellow
  | .blue => c.blue
  | .magenta => c.magenta
  | .cyan => c.cyan
  | .white => c.white

/-- The bright-variant field of a `Colors` value selected by color name. -/
def Colors.bright (c : Colors) : ColorName → String
  | .black => c.bright_black
  | .red => c.bright_red
  | .green => c.bright_green
  | .yellow => c.bright_yellow
  | .blue => c.bright_blue
  | .magenta => c.bright_magenta
  | .cyan => c.bright_cyan
  | .white => c.bright_white

/-- The ANSI escape sequence with numeric parameter `n`: ESC (0x1B), a left
bracket, the decimal digits of `n`, and the final letter m. -/
def escSeq (n : Nat) : String := "\x1B[" ++ toString n ++ "m"

/-- All 38 string fields of a `Codes` value: 6 attributes, 16 foreground
colors, 16 background colors. -/
def fieldsOf (c : Codes) : List String :=
  [c.attr.blink, c.attr.bold, c.attr.italic, c.attr.reset, c.attr.reverse, c.attr.underline,
   c.fg.black, c.fg.blue, c.fg.cyan, c.fg.green, c.fg.magenta, c.fg.red, c.fg.white, c.fg.yellow,
   c.fg.bright_black, c.fg.bright_blue, c.fg.bright_cyan, c.fg.bright_green, c.fg.bright_magenta,
   c.fg.bright_red, c.fg.bright_white, c.fg.bright_yellow,
   c.bg.black, c.bg.blue, c.bg.cyan, c.bg.green, c.bg.magenta, c.bg.red, c.bg.white, c.bg.yellow,
   c.bg.bright_black, c.bg.bright_blue, c.bg.bright_cyan, c.bg.bright_green, c.bg.bright_magenta,
   c.bg.bright_red, c.bg.bright_white, c.bg.bright_yellow]

/-- Remaining characters of an escape sequence after the first digit: zero or
more further decimal digits followed by the single final letter m. -/
def digitsThenM : List Char → Bool
  | ['m'] => true
  | c :: rest => c.isDigit && digitsThenM rest
  | [] => false

/-- Whether a string is a complete ANSI escape sequence of the shape used by
this library: ESC (0x1B), a left bracket, one or more decimal digits, and the
final letter m. -/
def isEscSeq (s : String) : Bool :=
  match s.data with
  | c1 :: c2 :: d :: rest => c1 == '\x1B' && c2 == '[' && d.isDigit && digitsThenM (d :: rest)
  | _ => false

/-- Either every one of the 38 fields is non-empty, or every one is empty. -/
def allSetOrAllEmpty (c : Codes) : Bool :=
  (fieldsOf c).all (fun s => s != "") || (fieldsOf c).all (fun s => s == "")

theorem init_auto_cases (r : Int) (v : Option (List Nat)) :
    init_auto r v = init_on ∨ init_auto r v = init_off := by
  unfold init_auto
  split
  · exact Or.inl rfl
  · exact Or.inr rfl

/-- Claim C1: every field of the table returned by `init_on` equals the
documented escape sequence byte for byte: attributes reset/bold/italic/
underline/blink/reverse are ESC[0m, ESC[1m, ESC[3m, ESC[4m, ESC[5m, ESC[7m;
foreground base colors are ESC[(30+N)m, foreground bright ESC[(90+N)m,
background base ESC[(40+N)m, background bright ESC[(100+N)m, with N the color
index 0-7 in the order black, red, green, yellow, blue, magenta, cyan, white. -/
theorem init_on_matches_documented_table :
    init_on.attr.reset = escSeq 0 ∧ init_on.attr.bold = escSeq 1 ∧
    init_on.attr.italic = escSeq 3 ∧ init_on.attr.underline = escSeq 4 ∧
    init_on.attr.blink = escSeq 5 ∧ init_on.attr.reverse = escSeq 7 ∧
    (∀ c : ColorName, init_on.fg.base c = escSeq (30 + c.idx)) ∧
    (∀ c : ColorName, init_on.fg.bright c = escSeq (90 + c.idx)) ∧
    (∀ c : ColorName, init_on.bg.base c = escSeq (40 + c.idx)) ∧
    (∀ c : ColorName, init_on.bg.bright c = escSeq (100 + c.idx)) := by
  refine ⟨by decide, by decide, by decide, by decide, by decide, by decide, ?_, ?_, ?_, ?_⟩ <;>
    intro c <;> cases c <;> decide

/-- Claim C5: every one of the 38 fields of the table returned by `init_off`
(6 attribute fields, 16 foreground and 16 background color fields) equals the
empty string. -/
theorem init_off_all_fields_empty : fieldsOf init_off = List.replicate 38 "" := by
  decide

/-- Claim C3: with `NO_COLOR` unset and the terminal check reporting an
interactive terminal, `init_auto` returns a table field-for-field equal to the
enabled table `init_on`. -/
theorem init_auto_tty_unset_yields_on (r : Int) (h : is_tty r = true) :
    init_auto r none = init_on := by
  simp [init_auto, no_color_env, env_var, h]

theorem init_auto_tty_unset_yields_on_witness :
    is_tty 1 = true ∧ init_auto 1 none = init_on :=
  ⟨by decide, init_auto_tty_unset_yields_on 1 (by decide)⟩

/-- Claim C4: with `NO_COLOR` unset but the terminal check reporting a
non-interactive standard output, `init_auto` returns a table field-for-field
equal to the disabled table `init_off`. -/
theorem init_auto_not_tty_yields_off (r : Int) (v : Option (List Nat))
    (h : is_tty r = false) : init_auto r v = init_off := by
  simp [init_auto, h]

theorem init_auto_not_tty_yields_off_witness :
    is_tty 0 = false ∧ init_auto 0 none = init_off :=
  ⟨by decide, init_auto_not_tty_yields_off 0 none (by decide)⟩

/-- Claim C2 (failing-input evaluation): with standard output a terminal
(isatty returned 1) and `NO_COLOR` set to the single byte 0xFF — present, but
not valid UTF-8, so `env::var` yields `Err(NotUnicode)` and `is_ok()` is
false — `init_auto` returns the enabled table, not the disabled one the claim
requires. For any valid-UTF-8 value the claim does hold (see
`init_auto_no_color_unicode_yields_off`). -/
theorem init_auto_non_unicode_no_color_yields_on :
    init_auto 1 (some [0xFF]) = init_on ∧ init_auto 1 (some [0xFF]) ≠ init_off := by
  constructor
  · decide
  · decide

/-- With `NO_COLOR` present and holding a valid-UTF-8 value (including the
empty value), `init_auto` returns the disabled table regardless of the
terminal status: the divergence in claim C2 is confined to non-Unicode
values. -/
theorem init_auto_no_color_unicode_yields_off (r : Int) (bytes : List Nat)
    (h : validUtf8 bytes = true) : init_auto r (some bytes) = init_off := by
  simp [init_auto, no_color_env, env_var, h]

theorem init_auto_no_color_unicode_yields_off_witness :
    validUtf8 [] = true ∧ init_auto 1 (some []) = init_off :=
  ⟨by decide, init_auto_no_color_unicode_yields_off 1 [] (by decide)⟩

/-- Claim C6: every table produced by any of the three public constructors has
either all 38 fields non-empty or all 38 fields empty, never a mixture. -/
theorem constructors_all_or_nothing :
    allSetOrAllEmpty init_on = true ∧ allSetOrAllEmpty init_off = true ∧
    ∀ (r : Int) (v : Option (List Nat)), allSetOrAllEmpty (init_auto r v) = true := by
  refine ⟨by decide, by decide, fun r v => ?_⟩
  rcases init_auto_cases r v with h | h <;> rw [h] <;> decide

/-- Claim C7: in every table produced by any of the three public constructors,
every non-empty field is a complete escape sequence — ESC (0x1B), a left
bracket, one or more decimal digits, and the final letter m — so no field ever
holds a partial or malformed sequence. -/
theorem constructors_wellformed_sequences :
    (fieldsOf init_on).all (fun s => s == "" || isEscSeq s) = true ∧
    (fieldsOf init_off).all (fun s => s == "" || isEscSeq s) = true ∧
    ∀ (r : Int) (v : Option (List Nat)),
      (fieldsOf (init_auto r v)).all (fun s => s == "" || isEscSeq s) = true := by
  refine ⟨by decide, by decide, fun r v => ?_⟩
  rcases init_auto_cases r v with h | h <;> rw [h] <;> decide

/-- Claim C8: the enabled and disabled constructors are deterministic — in
this embedding they are pure values, so any two calls of `init_on` denote the
same table, and likewise for `init_off`; `init_auto` is likewise a function of
its two external reads alone. -/
theorem init_on_off_deterministic :
    init_on = init_on ∧ init_off = init_off ∧
    ∀ (r : Int) (v : Option (List Nat)), init_auto r v = init_auto r v :=
  ⟨rfl, rfl, fun _ _ => rfl⟩

/-- Claim C9: `init_auto` never fails. It is total by construction, and the
only failure mode of the terminal query — `isatty` erroring on an invalid or
closed descriptor, in which case it returns 0 — makes `is_tty` report false,
so `init_auto` returns the disabled table whatever `NO_COLOR` holds. -/
theorem init_auto_error_fails_safe :
    is_tty 0 = false ∧ ∀ v : Option (List Nat), init_auto 0 v = init_off :=
  ⟨by decide, fun v => by simp [init_auto, is_tty]⟩

/-- Claim C10: the 38 field values of the table returned by `init_on` are
pairwise distinct; in particular every foreground sequence differs from the
background sequence of the same color name, in both base and bright
variants. -/
theorem init_on_fields_pairwise_distinct :
    (fieldsOf init_on).Nodup ∧
    ∀ c : ColorName, init_on.fg.base c ≠ init_on.bg.base c ∧
      init_on.fg.bright c ≠ init_on.bg.bright c := by
  refine ⟨by decide, fun c => ?_⟩
  cases c <;> exact ⟨by decide, by decide⟩

end ColorsLib
